import Mathlib

/-!
Verification of `src/src/thread.cpp` (bx threading abstraction).

The file shallowly embeds the three compiled backends of `bx::Thread`
(POSIX, classic Windows, WinRT) and `bx::TlsData` as explicit-state
functions, plus a small labelled transition system for the startup
handshake performed by `Thread::entry` and `Thread::init`.

Machine integers: `void*` user data and stored TLS values are modelled as
`Int` (a pointer-sized value, `0` = `NULL`); `int32_t` cells are `Int`
values wrapped with `toInt32`; `DWORD` round trips are `dwordOfInt` /
`int32OfDword`.
-/

namespace bx

/-- Signed 32-bit wrap: the value an `int32_t` cell holds after storing `z`. -/
def toInt32 (z : Int) : Int :=
  (z + 2147483648) % 4294967296 - 2147483648

/-- `z` is representable as a C `int32_t`. -/
abbrev isInt32 (z : Int) : Prop :=
  -2147483648 ≤ z ∧ z < 2147483648

/-- The value a `DWORD` (unsigned 32-bit) cell holds after storing `z`. -/
def dwordOfInt (z : Int) : Int := z % 4294967296

/-- Reading a `DWORD` bit pattern through an `int32_t` lvalue
(`GetExitCodeThread(handle, (DWORD*)&m_exitCode)`). -/
def int32OfDword (w : Int) : Int :=
  if w < 2147483648 then w else w - 4294967296

/-- Modelled from the spec: `BX_CHECK` (the assertion macro, defined outside
`src/`). Per the error-handling design, programming/contract errors and
resource exhaustion "fail fast (abort or panic-equivalent)": a failed check
aborts, so no successor state is ever returned to the caller. `bxCheck cond
msg k` continues with `k` when the checked condition holds and otherwise
aborts with `msg`. -/
def bxCheck (cond : Bool) (msg : String) (k : Except String α) : Except String α :=
  if cond then k else Except.error msg

/-- `typedef int32_t (*ThreadFn)(void* _userData)`: user data is a
pointer-sized value, the result is an `int32_t` status. -/
abbrev ThreadFn := Int → Int

/-- The platform branch compiled into `Thread::setThreadName`. -/
inductive NameBackend where
  | osxIos
  | glibc212
  | linuxPrctl
  | netbsd
  | freebsd
  | windowsMsvc
  | unsupported
  deriving DecidableEq

/-- `bx::Thread` on the POSIX backend: `m_fn`, `m_userData`, `m_stackSize`,
`m_exitCode`, `m_running`, and `ThreadInternal.m_handle` (`pthread_t`,
`0` when invalid). -/
structure Thread where
  fn : Option ThreadFn
  userData : Int
  stackSize : Nat
  exitCode : Int
  running : Bool
  handle : Nat

/-- `Thread::Thread()`: `m_fn(NULL)`, `m_userData(NULL)`, `m_stackSize(0)`,
`m_exitCode(0)`, `m_running(false)`; POSIX branch sets `ti->m_handle = 0`. -/
def Thread.new : Thread :=
  { fn := none, userData := 0, stackSize := 0, exitCode := 0
    running := false, handle := 0 }

/-- Outcomes of the native calls made during `Thread::init` on the POSIX
backend, supplied by the environment. -/
structure InitEnv where
  attrInitResult : Int
  setStackResult : Int
  createResult : Int
  newHandle : Nat
  nameBackend : NameBackend
  nameFails : Bool

/-- `Thread::setThreadName` (lines 198-244): every branch discards the
result of the native call; the MSVC branch raises the `0x406D1388`
exception inside `__try`/`__except(EXCEPTION_EXECUTE_HANDLER)`, which
swallows it; the fallback branch is `BX_UNUSED(_name)`, a no-op. No
branch writes any `Thread` field or aborts. -/
def Thread.setThreadName (t : Thread) (_nm : String) (b : NameBackend)
    (_nativeFails : Bool) : Except String Thread :=
  match b with
  | .osxIos => Except.ok t
  | .glibc212 => Except.ok t
  | .linuxPrctl => Except.ok t
  | .netbsd => Except.ok t
  | .freebsd => Except.ok t
  | .windowsMsvc => Except.ok t
  | .unsupported => Except.ok t

/-- `Thread::init` on the POSIX backend (lines 104-159): check not running;
record `m_fn`, `m_userData`, `m_stackSize`, set `m_running = true`; check
`pthread_attr_init`; when `m_stackSize != 0`, check
`pthread_attr_setstacksize`; `pthread_create` writes `ti->m_handle` and its
result is checked; `m_sem.wait()` blocks until `entry()` on the new thread
has posted; finally, when a name was supplied, `setThreadName`. -/
def Thread.init (t : Thread) (f : ThreadFn) (ud : Int) (ss : Nat)
    (nm : Option String) (env : InitEnv) : Except String Thread :=
  bxCheck (!t.running) "Already running!" <|
  let t1 : Thread :=
    { t with fn := some f, userData := ud, stackSize := ss, running := true }
  bxCheck (env.attrInitResult == 0) "pthread_attr_init failed!" <|
  let afterAttr : Except String Thread :=
    let t2 : Thread := { t1 with handle := env.newHandle }
    bxCheck (env.createResult == 0) "pthread_attr_setschedparam failed!" <|
    -- m_sem.wait(): returns only after the spawned thread has posted in entry()
    match nm with
    | some n => t2.setThreadName n env.nameBackend env.nameFails
    | none => Except.ok t2
  if ss != 0 then
    bxCheck (env.setStackResult == 0) "pthread_attr_setstacksize failed!" afterAttr
  else
    afterAttr

/-- The value `pthread_join` yields for this thread's `entry()` result:
`entry` returns `m_fn(m_userData)` (an `int32_t`), `threadFunc` passes it
through the `int32_t`/`void*` union. A running thread always has `m_fn`
set by `init`; the `none` branch is unreachable through the API. -/
def Thread.joinResult (t : Thread) : Int :=
  match t.fn with
  | some f => toInt32 (f t.userData)
  | none => 0

/-- `Thread::shutdown` on the POSIX backend (lines 161-186): check running;
`pthread_join(ti->m_handle, &cast.ptr)`; `m_exitCode = cast.i`;
`ti->m_handle = 0`; `m_running = false`. -/
def Thread.shutdown (t : Thread) : Except String Thread :=
  bxCheck t.running "Not running!" <|
  Except.ok { t with exitCode := t.joinResult, handle := 0, running := false }

/-- `Thread::~Thread()` (lines 96-102): `if (m_running) { shutdown(); }`. -/
def Thread.destruct (t : Thread) : Except String Thread :=
  if t.running then t.shutdown else Except.ok t

/-- `Thread::isRunning()`. -/
def Thread.isRunning (t : Thread) : Bool := t.running

/-- `Thread::getExitCode()`. -/
def Thread.getExitCode (t : Thread) : Int := t.exitCode

/-- The Windows `INVALID_HANDLE_VALUE` sentinel, `(HANDLE)-1`. -/
def INVALID_HANDLE_VALUE : Int := -1

/-- The `UINT32_MAX` sentinel stored in `ThreadInternal.m_threadId` by the
constructor on the Windows family of backends. -/
def UINT32_MAX : Nat := 4294967295

/-- `bx::Thread` on the classic Windows backend: the shared fields plus
`ThreadInternal.m_handle` (`HANDLE`) and `ThreadInternal.m_threadId`
(`DWORD`). -/
structure ThreadW where
  fn : Option ThreadFn
  userData : Int
  stackSize : Nat
  exitCode : Int
  running : Bool
  handle : Int
  threadId : Nat

/-- `Thread::Thread()` on Windows: shared fields as on POSIX;
`ti->m_handle = INVALID_HANDLE_VALUE`, `ti->m_threadId = UINT32_MAX`. -/
def ThreadW.new : ThreadW :=
  { fn := none, userData := 0, stackSize := 0, exitCode := 0
    running := false, handle := INVALID_HANDLE_VALUE, threadId := UINT32_MAX }

/-- Outcomes of the native calls made during `Thread::init` on the classic
Windows backend. `CreateThread` returns `0` (`NULL`) on failure; the code
does not check this result. `currentThreadId` is the `GetCurrentThreadId()`
value `entry()` observes on the new thread. -/
structure InitEnvW where
  newHandle : Int
  currentThreadId : Nat
  raiseFails : Bool

/-- `Thread::setThreadName` as compiled on classic Windows with MSVC:
`RaiseException(0x406D1388, ...)` inside `__try`/`__except` — the handler
swallows any failure; no `Thread` field is written and the call never
aborts. (Non-MSVC Windows falls to the `BX_UNUSED(_name)` no-op branch.) -/
def ThreadW.setThreadName (t : ThreadW) (_nm : String)
    (_raiseFails : Bool) : Except String ThreadW :=
  Except.ok t

/-- `Thread::init` on classic Windows (lines 104-121, 153-158): check not
running; record fields, set `m_running = true`; `ti->m_handle =
CreateThread(...)` (result unchecked); `m_sem.wait()` — `entry()` on the
new thread stores `GetCurrentThreadId()` into `ti->m_threadId` before
posting, so by the time the wait returns the identifier is written; then
optionally `setThreadName`. -/
def ThreadW.init (t : ThreadW) (f : ThreadFn) (ud : Int) (ss : Nat)
    (nm : Option String) (env : InitEnvW) : Except String ThreadW :=
  bxCheck (!t.running) "Already running!" <|
  let t1 : ThreadW :=
    { t with fn := some f, userData := ud, stackSize := ss, running := true
             handle := env.newHandle }
  -- m_sem.wait(): entry() has already run `ti->m_threadId = ::GetCurrentThreadId()`
  let t2 : ThreadW := { t1 with threadId := env.currentThreadId }
  match nm with
  | some n => t2.setThreadName n env.raiseFails
  | none => Except.ok t2

/-- The `DWORD` exit status of this thread: `entry` returns
`m_fn(m_userData)` (an `int32_t`), `ThreadInternal::threadFunc` returns it
as its `DWORD` result. -/
def ThreadW.joinResult (t : ThreadW) : Int :=
  match t.fn with
  | some f => toInt32 (f t.userData)
  | none => 0

/-- `Thread::shutdown` on classic Windows (lines 161-169, 185):
check running; `WaitForSingleObject(ti->m_handle, INFINITE)`;
`GetExitCodeThread(ti->m_handle, (DWORD*)&m_exitCode)`; `CloseHandle`;
`ti->m_handle = INVALID_HANDLE_VALUE`; `m_running = false`.
Note: `ti->m_threadId` is NOT reset. -/
def ThreadW.shutdown (t : ThreadW) : Except String ThreadW :=
  bxCheck t.running "Not running!" <|
  Except.ok { t with exitCode := int32OfDword (dwordOfInt t.joinResult)
                     handle := INVALID_HANDLE_VALUE, running := false }

/-- `Thread::isRunning()` (Windows). -/
def ThreadW.isRunning (t : ThreadW) : Bool := t.running

/-- `Thread::getExitCode()` (Windows). -/
def ThreadW.getExitCode (t : ThreadW) : Int := t.exitCode

/-- `bx::Thread` on the WinRT backend: shared fields, `ti->m_handle` (an
event handle from `CreateEventEx`), `ti->m_threadId` (never written after
construction on this backend), and whether the work item has run
`SetEvent`. -/
structure ThreadRT where
  fn : Option ThreadFn
  userData : Int
  stackSize : Nat
  exitCode : Int
  running : Bool
  handle : Int
  threadId : Nat
  eventSet : Bool

/-- `Thread::Thread()` on WinRT: same member initialization as Windows;
the event does not exist yet. -/
def ThreadRT.new : ThreadRT :=
  { fn := none, userData := 0, stackSize := 0, exitCode := 0
    running := false, handle := INVALID_HANDLE_VALUE, threadId := UINT32_MAX
    eventSet := false }

/-- Environment for `Thread::init` on WinRT: the handle `CreateEventEx`
returns. -/
structure InitEnvRT where
  eventHandle : Int

/-- `Thread::setThreadName` as compiled on WinRT: `BX_PLATFORM_WINDOWS` is
false there, so the `#else` branch `BX_UNUSED(_name)` applies — a no-op. -/
def ThreadRT.setThreadName (t : ThreadRT) (_nm : String) : Except String ThreadRT :=
  Except.ok t

/-- The `DWORD` result of `ti->threadFunc(this)` on WinRT. -/
def ThreadRT.joinResult (t : ThreadRT) : Int :=
  match t.fn with
  | some f => toInt32 (f t.userData)
  | none => 0

/-- The WinRT work item (lines 124-130): runs on a pool thread; computes
`m_exitCode = ti->threadFunc(this)` (the worker's `int32_t` result passed
through a `DWORD`) and then `SetEvent(ti->m_handle)`. This runs between
`init` and `shutdown`, after the worker returns. -/
def ThreadRT.workItemComplete (t : ThreadRT) : ThreadRT :=
  { t with exitCode := int32OfDword (dwordOfInt t.joinResult), eventSet := true }

/-- `Thread::init` on WinRT (lines 104-112, 122-132, 153-158): check not
running; record fields, set `m_running = true`; `ti->m_handle =
CreateEventEx(...)`; `ThreadPool::RunAsync` schedules the work item;
`m_sem.wait()` returns once `entry()` (inside the work item) has posted,
before the worker body completes; then optionally `setThreadName`. -/
def ThreadRT.init (t : ThreadRT) (f : ThreadFn) (ud : Int) (ss : Nat)
    (nm : Option String) (env : InitEnvRT) : Except String ThreadRT :=
  bxCheck (!t.running) "Already running!" <|
  let t1 : ThreadRT :=
    { t with fn := some f, userData := ud, stackSize := ss, running := true
             handle := env.eventHandle, eventSet := false }
  match nm with
  | some n => t1.setThreadName n
  | none => Except.ok t1

/-- `Thread::shutdown` on WinRT (lines 161-163, 170-173, 185): check
running; `WaitForSingleObjectEx(ti->m_handle, INFINITE, FALSE)` blocks
until the work item has run `SetEvent` (so its `m_exitCode` write has
happened); `CloseHandle`; `ti->m_handle = INVALID_HANDLE_VALUE`;
`m_running = false`. `m_exitCode` is not read or written by `shutdown`
itself on this backend. -/
def ThreadRT.shutdown (t : ThreadRT) : Except String ThreadRT :=
  bxCheck t.running "Not running!" <|
  let t1 : ThreadRT := if t.eventSet then t else t.workItemComplete
  Except.ok { t1 with handle := INVALID_HANDLE_VALUE, running := false }

/-- `Thread::isRunning()` (WinRT). -/
def ThreadRT.isRunning (t : ThreadRT) : Bool := t.running

/-- `Thread::getExitCode()` (WinRT). -/
def ThreadRT.getExitCode (t : ThreadRT) : Int := t.exitCode

/-- `bx::TlsData` (lines 257-325): one process-wide key addressing one
pointer-sized cell per thread. Both backends (`TlsAlloc`/`TlsGetValue`/
`TlsSetValue` and `pthread_key_create`/`pthread_getspecific`/
`pthread_setspecific`) guarantee a per-thread cell that reads `NULL`
(modelled `0`) until the calling thread stores into it. `store` maps a
thread identifier to that thread's cell. -/
structure TlsData where
  store : Nat → Int

/-- `TlsData::TlsData()`: allocates a fresh key; every thread's cell for a
fresh key reads `NULL`. -/
def TlsData.new : TlsData := { store := fun _ => 0 }

/-- `TlsData::get()`: `TlsGetValue(ti->m_id)` / `pthread_getspecific(ti->m_id)`
on the calling thread `tid`. -/
def TlsData.get (s : TlsData) (tid : Nat) : Int := s.store tid

/-- `TlsData::set(void* _ptr)`: `TlsSetValue` / `pthread_setspecific` on the
calling thread `tid`; overwrites only that thread's cell. -/
def TlsData.set (s : TlsData) (tid : Nat) (v : Int) : TlsData :=
  { store := fun u => if u = tid then v else s.store u }

/-- A sequence of `TlsData::set` calls, each tagged with the calling
thread's identifier. -/
def TlsData.applyOps (s : TlsData) (ops : List (Nat × Int)) : TlsData :=
  ops.foldl (fun acc p => acc.set p.1 p.2) s

/-- Modelled from the spec: the external semaphore (`bx::Semaphore`, defined
outside `src/`) is "a black-box blocking counter with wait()/post()":
`post()` increments the count; `wait()` blocks until the count is at least
one and decrements it. The transition system below interleaves the spawned
thread executing `Thread::entry` (lines 246-255: capture the native thread
identifier, `m_sem.post()`, invoke the worker) with the spawning thread
blocked in `m_sem.wait()` (line 153). Program counter of the spawned
thread inside `entry`. -/
inductive SpawnPC where
  | atCapture
  | atPost
  | atWorker
  | done
  deriving DecidableEq

/-- Program counter of the spawning thread inside `Thread::init`: blocked at
`m_sem.wait()`, or past it (about to return). -/
inductive OwnerPC where
  | atWait
  | afterWait
  deriving DecidableEq

/-- Joint state of the startup handshake: the semaphore count and the two
program counters. -/
structure HsState where
  sem : Nat
  spawn : SpawnPC
  owner : OwnerPC
  deriving DecidableEq

/-- Observable actions of the handshake. -/
inductive HsAct where
  | captureId
  | semPost
  | invokeWorker
  | semWaitRet
  deriving DecidableEq

/-- One interleaved step of the handshake: the spawned thread executes the
next statement of `entry()` (capture the identifier, post, invoke the
worker), or the owner's `wait()` returns, which requires a positive
semaphore count and consumes one unit. -/
inductive HsStep : HsState → HsAct → HsState → Prop where
  | capture (sem : Nat) (o : OwnerPC) :
      HsStep ⟨sem, .atCapture, o⟩ .captureId ⟨sem, .atPost, o⟩
  | post (sem : Nat) (o : OwnerPC) :
      HsStep ⟨sem, .atPost, o⟩ .semPost ⟨sem + 1, .atWorker, o⟩
  | invoke (sem : Nat) (o : OwnerPC) :
      HsStep ⟨sem, .atWorker, o⟩ .invokeWorker ⟨sem, .done, o⟩
  | waitRet (sem : Nat) (sp : SpawnPC) :
      HsStep ⟨sem + 1, sp, .atWait⟩ .semWaitRet ⟨sem, sp, .afterWait⟩

/-- Executions of the handshake: `HsReaches s tr s'` holds when the
interleaving `tr` of actions leads from `s` to `s'`. -/
inductive HsReaches : HsState → List HsAct → HsState → Prop where
  | refl (s : HsState) : HsReaches s [] s
  | step {s s1 s2 : HsState} {a : HsAct} {tr : List HsAct} :
      HsStep s a s1 → HsReaches s1 tr s2 → HsReaches s (a :: tr) s2

/-- The handshake state at the start of `Thread::init`'s wait: semaphore
fresh at zero, spawned thread at the top of `entry`, owner blocked in
`wait`. -/
def hsInit : HsState := ⟨0, .atCapture, .atWait⟩

/-- Number of occurrences of action `a` in a handshake trace. -/
def cnt (a : HsAct) : List HsAct → Nat
  | [] => 0
  | b :: tr => cnt a tr + (if b = a then 1 else 0)

/-- Number of identifier captures in a handshake trace. -/
def capCnt (tr : List HsAct) : Nat := cnt .captureId tr

/-- Number of `m_sem.post()` calls in a handshake trace. -/
def postCnt (tr : List HsAct) : Nat := cnt .semPost tr

/-- Number of worker invocations in a handshake trace. -/
def invokeCnt (tr : List HsAct) : Nat := cnt .invokeWorker tr

/-- Number of completed `m_sem.wait()` calls in a handshake trace. -/
def waitCnt (tr : List HsAct) : Nat := cnt .semWaitRet tr

/-- How far the spawned thread has progressed through `entry`. -/
def spawnStage : SpawnPC → Nat
  | .atCapture => 0
  | .atPost => 1
  | .atWorker => 2
  | .done => 3

/-- Whether the owner's `wait` has returned. -/
def ownerStage : OwnerPC → Nat
  | .atWait => 0
  | .afterWait => 1

/-- 1 when the spawned thread has captured its identifier. -/
def capDone (s : HsState) : Nat := if 1 ≤ spawnStage s.spawn then 1 else 0

/-- 1 when the spawned thread has posted. -/
def postDone (s : HsState) : Nat := if 2 ≤ spawnStage s.spawn then 1 else 0

/-- 1 when the spawned thread has invoked the worker. -/
def invokeDone (s : HsState) : Nat := if 3 ≤ spawnStage s.spawn then 1 else 0

/-- One serial start/stop cycle: `Thread::init` followed by
`Thread::shutdown` (POSIX backend). -/
def Thread.cycle (f : ThreadFn) (ud : Int) (ss : Nat) (nm : Option String)
    (env : InitEnv) (t : Thread) : Except String Thread :=
  (t.init f ud ss nm env).bind Thread.shutdown

/-- `n` serial start/stop cycles on the same handle. -/
def Thread.cycles (f : ThreadFn) (ud : Int) (ss : Nat) (nm : Option String)
    (env : InitEnv) : Nat → Thread → Except String Thread
  | 0, t => Except.ok t
  | n + 1, t => (Thread.cycle f ud ss nm env t).bind (Thread.cycles f ud ss nm env n)

/-- All native calls during `Thread::init` succeed. -/
abbrev InitEnv.ok (env : InitEnv) : Prop :=
  env.attrInitResult = 0 ∧ env.setStackResult = 0 ∧ env.createResult = 0

/-- The handle state every successful start/stop cycle ends in: worker and
user data recorded, exit code captured, not running, handle released. -/
def cycleEnd (f : ThreadFn) (ud : Int) (ss : Nat) : Thread :=
  { fn := some f, userData := ud, stackSize := ss, exitCode := toInt32 (f ud)
    running := false, handle := 0 }

/-- A concrete all-successful POSIX environment (`pthread_create` writes
handle `7`). -/
def envOkEx : InitEnv :=
  { attrInitResult := 0, setStackResult := 0, createResult := 0
    newHandle := 7, nameBackend := .glibc212, nameFails := false }

/-- A concrete POSIX environment where `pthread_create` fails with
`EAGAIN`-like result `11`. -/
def envCreateFail : InitEnv :=
  { attrInitResult := 0, setStackResult := 0, createResult := 11
    newHandle := 0, nameBackend := .glibc212, nameFails := false }

/-- The state of a fresh handle after a successful `init` with the worker
`fun _ => 7` and the environment `envOkEx`. -/
def startedEx : Thread :=
  { fn := some (fun _ => 7), userData := 0, stackSize := 0, exitCode := 0
    running := true, handle := 7 }

/-- `startedEx` after `shutdown`. -/
def stoppedEx : Thread :=
  { fn := some (fun _ => 7), userData := 0, stackSize := 0, exitCode := 7
    running := false, handle := 0 }

/-- A classic-Windows handle after a successful `init` with worker
`fun _ => 0`, `CreateThread` handle `5`, and thread identifier `1234`. -/
def wStartedEx : ThreadW :=
  { fn := some (fun _ => 0), userData := 0, stackSize := 0, exitCode := 0
    running := true, handle := 5, threadId := 1234 }

/-- `wStartedEx` after `shutdown`: the handle is back at the sentinel, the
thread identifier is not. -/
def wStoppedEx : ThreadW :=
  { fn := some (fun _ => 0), userData := 0, stackSize := 0, exitCode := 0
    running := false, handle := INVALID_HANDLE_VALUE, threadId := 1234 }

/-- A concrete WinRT environment (`CreateEventEx` returns handle `33`). -/
def rtEnv0 : InitEnvRT := { eventHandle := 33 }

/-- A WinRT handle after a successful `init` with worker `fun _ => 7`. -/
def rtStartedEx : ThreadRT :=
  { fn := some (fun _ => 7), userData := 0, stackSize := 0, exitCode := 0
    running := true, handle := 33, threadId := UINT32_MAX, eventSet := false }

/-- A complete interleaving of the startup handshake: capture, post, the
owner's wait returns, then the worker is invoked. -/
def hsTraceEx : List HsAct := [.captureId, .semPost, .semWaitRet, .invokeWorker]

/-- The handshake state reached by `hsTraceEx`. -/
def hsEndEx : HsState := ⟨0, .done, .afterWait⟩

theorem toInt32_eq_self {z : Int} (h : isInt32 z) : toInt32 z = z := by
  rcases h with ⟨h1, h2⟩
  unfold toInt32
  omega

theorem isInt32_toInt32 (z : Int) : isInt32 (toInt32 z) := by
  unfold isInt32 toInt32
  omega

theorem int32OfDword_dwordOfInt {z : Int} (h : isInt32 z) :
    int32OfDword (dwordOfInt z) = z := by
  rcases h with ⟨h1, h2⟩
  unfold int32OfDword dwordOfInt
  split <;> omega

theorem setThreadName_ok (t : Thread) (nm : String) (b : NameBackend) (fl : Bool) :
    t.setThreadName nm b fl = Except.ok t := by
  cases b <;> rfl

theorem setThreadNameW_ok (t : ThreadW) (nm : String) (fl : Bool) :
    t.setThreadName nm fl = Except.ok t := rfl

theorem setThreadNameRT_ok (t : ThreadRT) (nm : String) :
    t.setThreadName nm = Except.ok t := rfl

theorem init_ok_iff (t : Thread) (f : ThreadFn) (ud : Int) (ss : Nat)
    (nm : Option String) (env : InitEnv) (t' : Thread) :
    t.init f ud ss nm env = Except.ok t' ↔
      t.running = false ∧ env.attrInitResult = 0 ∧
      (ss ≠ 0 → env.setStackResult = 0) ∧ env.createResult = 0 ∧
      t' = { t with fn := some f, userData := ud, stackSize := ss
                    running := true, handle := env.newHandle } := by
  cases hr : t.running <;>
    cases nm <;>
      simp [Thread.init, bxCheck, hr, setThreadName_ok, beq_iff_eq, bne_iff_ne] <;>
        split_ifs <;> simp_all <;> tauto

theorem shutdown_ok_iff (t t' : Thread) :
    t.shutdown = Except.ok t' ↔
      t.running = true ∧
      t' = { t with exitCode := t.joinResult, handle := 0, running := false } := by
  cases hr : t.running <;> simp [Thread.shutdown, bxCheck, hr, eq_comm]

theorem initW_ok_iff (t : ThreadW) (f : ThreadFn) (ud : Int) (ss : Nat)
    (nm : Option String) (env : InitEnvW) (t' : ThreadW) :
    t.init f ud ss nm env = Except.ok t' ↔
      t.running = false ∧
      t' = { t with fn := some f, userData := ud, stackSize := ss
                    running := true, handle := env.newHandle
                    threadId := env.currentThreadId } := by
  cases hr : t.running <;>
    cases nm <;>
      simp [ThreadW.init, bxCheck, hr, ThreadW.setThreadName, eq_comm]

theorem shutdownW_ok_iff (t t' : ThreadW) :
    t.shutdown = Except.ok t' ↔
      t.running = true ∧
      t' = { t with exitCode := int32OfDword (dwordOfInt t.joinResult)
                    handle := INVALID_HANDLE_VALUE, running := false } := by
  cases hr : t.running <;> simp [ThreadW.shutdown, bxCheck, hr, eq_comm]

theorem initRT_ok_iff (t : ThreadRT) (f : ThreadFn) (ud : Int) (ss : Nat)
    (nm : Option String) (env : InitEnvRT) (t' : ThreadRT) :
    t.init f ud ss nm env = Except.ok t' ↔
      t.running = false ∧
      t' = { t with fn := some f, userData := ud, stackSize := ss
                    running := true, handle := env.eventHandle
                    eventSet := false } := by
  cases hr : t.running <;>
    cases nm <;>
      simp [ThreadRT.init, bxCheck, hr, ThreadRT.setThreadName, eq_comm]

theorem shutdownRT_frame (t t' : ThreadRT) (he : t.eventSet = true)
    (h : t.shutdown = Except.ok t') : t'.exitCode = t.exitCode := by
  unfold ThreadRT.shutdown bxCheck at h
  cases hr : t.running <;> simp [hr, he] at h
  subst h
  rfl

theorem hs_counts {s s' : HsState} {tr : List HsAct} (h : HsReaches s tr s') :
    capDone s + capCnt tr = capDone s' ∧
    postDone s + postCnt tr = postDone s' ∧
    invokeDone s + invokeCnt tr = invokeDone s' ∧
    ownerStage s.owner + waitCnt tr = ownerStage s'.owner ∧
    s.sem + postCnt tr = s'.sem + waitCnt tr := by
  induction h with
  | refl s => simp [capCnt, postCnt, invokeCnt, waitCnt, cnt]
  | step hstep _ ih =>
    obtain ⟨i1, i2, i3, i4, i5⟩ := ih
    cases hstep <;>
      simp [capCnt, postCnt, invokeCnt, waitCnt, cnt, capDone, postDone,
            invokeDone, ownerStage, spawnStage] at i1 i2 i3 i4 i5 ⊢ <;>
        omega

theorem tls_get_set_same (s : TlsData) (tid : Nat) (v : Int) :
    (s.set tid v).get tid = v := by
  simp [TlsData.get, TlsData.set]

theorem tls_get_set_other (s : TlsData) (tid u : Nat) (v : Int) (h : u ≠ tid) :
    (s.set tid v).get u = s.get u := by
  simp [TlsData.get, TlsData.set, h]

theorem tls_applyOps_other (ops : List (Nat × Int)) (s : TlsData) (B : Nat)
    (h : ∀ p ∈ ops, p.1 ≠ B) : (s.applyOps ops).get B = s.get B := by
  induction ops generalizing s with
  | nil => rfl
  | cons p ops ih =>
    have hp : B ≠ p.1 := fun e => h p (by simp) e.symm
    have hstep : s.applyOps (p :: ops) = (s.set p.1 p.2).applyOps ops := rfl
    rw [hstep, ih _ (fun q hq => h q (List.mem_cons_of_mem _ hq))]
    exact tls_get_set_other _ _ _ _ hp

/-- C1: for every worker function `f` and user-data pointer `d`, after
`start(f, d)` (`Thread::init`) returns, `isRunning()` returns true; after
the subsequent `stop()` (`Thread::shutdown`) returns, `isRunning()` returns
false and `getExitCode()` returns exactly the 32-bit signed value `f`
returned. -/
theorem start_stop_exit_code (t : Thread) (f : ThreadFn) (ud : Int) (ss : Nat)
    (nm : Option String) (env : InitEnv) (t' : Thread)
    (hinit : t.init f ud ss nm env = Except.ok t') (hf : isInt32 (f ud)) :
    t'.isRunning = true ∧
    ∃ t'', t'.shutdown = Except.ok t'' ∧
      t''.isRunning = false ∧ t''.getExitCode = f ud := by
  obtain ⟨hr, ha, hs, hc, ht⟩ := (init_ok_iff t f ud ss nm env t').mp hinit
  subst ht
  refine ⟨rfl, _, (shutdown_ok_iff _ _).mpr ⟨rfl, rfl⟩, rfl, ?_⟩
  simp [Thread.getExitCode, Thread.joinResult, toInt32_eq_self hf]

/-- Witness for C1: a fresh handle, the worker `fun _ => 7`, user data `0`,
an all-successful environment. -/
theorem start_stop_exit_code_witness :
    startedEx.isRunning = true ∧
    ∃ t'', startedEx.shutdown = Except.ok t'' ∧
      t''.isRunning = false ∧ t''.getExitCode = 7 :=
  start_stop_exit_code Thread.new (fun _ => 7) 0 0 none envOkEx startedEx rfl
    (by decide)

/-- C2: in every interleaved execution of the startup handshake from its
start state, the semaphore post happens only after the spawned thread has
captured its identifier and before it invokes the worker (every prefix has
at most as many posts as captures and at most as many worker invocations as
posts), at most one post/wait pair is used, and when the owner's
`m_sem.wait()` has returned (so `Thread::init` can return) the spawned
thread is past the post — hence past the identifier capture — and exactly
one post/wait pair was consumed. -/
theorem handshake_post_order (tr : List HsAct) (s : HsState)
    (h : HsReaches hsInit tr s) :
    postCnt tr ≤ capCnt tr ∧ invokeCnt tr ≤ postCnt tr ∧
    capCnt tr ≤ 1 ∧ postCnt tr ≤ 1 ∧ waitCnt tr ≤ 1 ∧
    (s.owner = .afterWait →
      2 ≤ spawnStage s.spawn ∧ postCnt tr = 1 ∧ waitCnt tr = 1) := by
  obtain ⟨h1, h2, h3, h4, h5⟩ := hs_counts h
  rcases s with ⟨sem, sp, o⟩
  cases sp <;> cases o <;>
    simp_all [hsInit, capDone, postDone, invokeDone, ownerStage, spawnStage] <;>
      omega

/-- Witness for C2: the complete handshake interleaving `hsTraceEx`. -/
theorem handshake_post_order_witness :
    postCnt hsTraceEx ≤ capCnt hsTraceEx ∧
    invokeCnt hsTraceEx ≤ postCnt hsTraceEx ∧
    capCnt hsTraceEx ≤ 1 ∧ postCnt hsTraceEx ≤ 1 ∧ waitCnt hsTraceEx ≤ 1 ∧
    (hsEndEx.owner = .afterWait →
      2 ≤ spawnStage hsEndEx.spawn ∧ postCnt hsTraceEx = 1 ∧
      waitCnt hsTraceEx = 1) :=
  handshake_post_order hsTraceEx hsEndEx
    (HsReaches.step (HsStep.capture 0 .atWait)
      (HsReaches.step (HsStep.post 0 .atWait)
        (HsReaches.step (HsStep.waitRet 0 .atWorker)
          (HsReaches.step (HsStep.invoke 0 .afterWait)
            (HsReaches.refl hsEndEx)))))

/-- C3: destroying a handle (`Thread::~Thread`) whose thread is still
running performs the implicit stop: destruction is exactly `shutdown`,
which joins the thread (its captured exit code is the worker's result,
observable only after termination) and releases the native handle before
returning; destroying a non-running handle performs no stop and leaves the
state untouched. -/
theorem destructor_implicit_stop (t : Thread) :
    (t.running = true →
      t.destruct = t.shutdown ∧
      ∃ t', t.destruct = Except.ok t' ∧ t'.isRunning = false ∧
        t'.handle = 0 ∧ t'.getExitCode = t.joinResult) ∧
    (t.running = false → t.destruct = Except.ok t) := by
  constructor
  · intro hr
    have hd : t.destruct = t.shutdown := by simp [Thread.destruct, hr]
    refine ⟨hd, { t with exitCode := t.joinResult, handle := 0, running := false },
      ?_, rfl, rfl, rfl⟩
    rw [hd]
    exact (shutdown_ok_iff t _).mpr ⟨hr, rfl⟩
  · intro hr
    simp [Thread.destruct, hr]

/-- Witness for C3: destruction of the running `startedEx` joins and
captures exit code 7; destruction of the idle fresh handle is a no-op. -/
theorem destructor_implicit_stop_witness :
    (startedEx.destruct = startedEx.shutdown ∧
     ∃ t', startedEx.destruct = Except.ok t' ∧ t'.isRunning = false ∧
       t'.handle = 0 ∧ t'.getExitCode = 7) ∧
    Thread.new.destruct = Except.ok Thread.new :=
  ⟨(destructor_implicit_stop startedEx).1 rfl,
   (destructor_implicit_stop Thread.new).2 rfl⟩

/-- C4: for a `TlsData` slot shared by threads `A` and `B`: on thread `A`,
`get()` after `set(v)` returns `v`; on thread `B`, which never called `set`
on this slot (no operation in the history was issued by `B`), `get()`
returns the null default `0` regardless of what `A` (or any other thread)
stored. -/
theorem tls_per_thread_isolation (ops : List (Nat × Int)) (A B : Nat) (v : Int)
    (hops : ∀ p ∈ ops, p.1 ≠ B) (hAB : A ≠ B) :
    ((TlsData.new.applyOps ops).set A v).get A = v ∧
    ((TlsData.new.applyOps ops).set A v).get B = 0 := by
  refine ⟨tls_get_set_same _ _ _, ?_⟩
  rw [tls_get_set_other _ _ _ _ (fun e => hAB e.symm)]
  rw [tls_applyOps_other ops _ B hops]
  rfl

/-- Witness for C4: thread 1 stores 42 (twice over a one-step history);
thread 2 still reads the null default. -/
theorem tls_per_thread_isolation_witness :
    ((TlsData.new.applyOps [(1, 42)]).set 1 42).get 1 = 42 ∧
    ((TlsData.new.applyOps [(1, 42)]).set 1 42).get 2 = 0 :=
  tls_per_thread_isolation [(1, 42)] 1 2 42 (by decide) (by decide)

/-- C5: calling start (`Thread::init`) while already running and calling
stop (`Thread::shutdown`) while not running are each rejected fail-fast
(the `BX_CHECK` abort, modelled as an error with no successor state): on
both the POSIX and classic Windows backends, start on a running handle
aborts before any thread-creation step, so no second thread is ever
spawned. -/
theorem lifecycle_misuse_fails_fast (t : Thread) (tw : ThreadW) (f : ThreadFn)
    (ud : Int) (ss : Nat) (nm : Option String) (env : InitEnv)
    (envw : InitEnvW) :
    (t.running = true → t.init f ud ss nm env = Except.error "Already running!") ∧
    (t.running = false → t.shutdown = Except.error "Not running!") ∧
    (tw.running = true → tw.init f ud ss nm envw = Except.error "Already running!") ∧
    (tw.running = false → tw.shutdown = Except.error "Not running!") := by
  refine ⟨fun hr => ?_, fun hr => ?_, fun hr => ?_, fun hr => ?_⟩ <;>
    simp [Thread.init, Thread.shutdown, ThreadW.init, ThreadW.shutdown,
          bxCheck, hr]

/-- Witness for C5: the running states `startedEx`/`wStartedEx` reject
start; the fresh states reject stop. -/
theorem lifecycle_misuse_fails_fast_witness :
    startedEx.init (fun _ => 7) 0 0 none envOkEx = Except.error "Already running!" ∧
    Thread.new.shutdown = Except.error "Not running!" ∧
    wStartedEx.init (fun _ => 7) 0 0 none ⟨5, 1234, false⟩ = Except.error "Already running!" ∧
    ThreadW.new.shutdown = Except.error "Not running!" :=
  ⟨(lifecycle_misuse_fails_fast startedEx wStartedEx (fun _ => 7) 0 0 none
      envOkEx ⟨5, 1234, false⟩).1 rfl,
   (lifecycle_misuse_fails_fast Thread.new wStartedEx (fun _ => 7) 0 0 none
      envOkEx ⟨5, 1234, false⟩).2.1 rfl,
   (lifecycle_misuse_fails_fast startedEx wStartedEx (fun _ => 7) 0 0 none
      envOkEx ⟨5, 1234, false⟩).2.2.1 rfl,
   (lifecycle_misuse_fails_fast startedEx ThreadW.new (fun _ => 7) 0 0 none
      envOkEx ⟨5, 1234, false⟩).2.2.2 rfl⟩

/-- C6: if `pthread_create` fails during start (`Thread::init`, POSIX
backend), the failure is surfaced as a fatal error (the `BX_CHECK` abort,
modelled as an error return) rather than a silent no-op, and no state — in
particular no running state — is ever handed back to the caller from the
failed start. -/
theorem create_failure_surfaced (t : Thread) (f : ThreadFn) (ud : Int)
    (ss : Nat) (nm : Option String) (env : InitEnv)
    (hc : env.createResult ≠ 0) :
    (∃ msg, t.init f ud ss nm env = Except.error msg) ∧
    ∀ t', t.init f ud ss nm env ≠ Except.ok t' := by
  have hnok : ∀ t', t.init f ud ss nm env ≠ Except.ok t' := by
    intro t' h
    obtain ⟨_, _, _, hc0, _⟩ := (init_ok_iff t f ud ss nm env t').mp h
    exact hc hc0
  refine ⟨?_, hnok⟩
  cases h : t.init f ud ss nm env with
  | error msg => exact ⟨msg, rfl⟩
  | ok t' => exact absurd h (hnok t')

/-- Witness for C6: `pthread_create` failing with result 11 on a fresh
handle. -/
theorem create_failure_surfaced_witness :
    (∃ msg, Thread.new.init (fun _ => 7) 0 0 none envCreateFail = Except.error msg) ∧
    ∀ t', Thread.new.init (fun _ => 7) 0 0 none envCreateFail ≠ Except.ok t' :=
  create_failure_surfaced Thread.new (fun _ => 7) 0 0 none envCreateFail
    (by decide)

theorem cycle_ok (f : ThreadFn) (ud : Int) (ss : Nat) (nm : Option String)
    (env : InitEnv) (t : Thread) (henv : env.ok) (hr : t.running = false) :
    Thread.cycle f ud ss nm env t = Except.ok (cycleEnd f ud ss) := by
  obtain ⟨ha, hs, hc⟩ := henv
  have hinit : t.init f ud ss nm env = Except.ok
      { t with fn := some f, userData := ud, stackSize := ss
               running := true, handle := env.newHandle } :=
    (init_ok_iff t f ud ss nm env _).mpr ⟨hr, ha, fun _ => hs, hc, rfl⟩
  unfold Thread.cycle
  rw [hinit]
  exact (shutdown_ok_iff _ _).mpr ⟨rfl, rfl⟩

theorem cycles_succ_ok (f : ThreadFn) (ud : Int) (ss : Nat)
    (nm : Option String) (env : InitEnv) (henv : env.ok) :
    ∀ (n : Nat) (t : Thread), t.running = false →
      Thread.cycles f ud ss nm env (n + 1) t = Except.ok (cycleEnd f ud ss) := by
  intro n
  induction n with
  | zero =>
    intro t hr
    show (Thread.cycle f ud ss nm env t).bind _ = _
    rw [cycle_ok f ud ss nm env t henv hr]
    rfl
  | succ n ih =>
    intro t hr
    show (Thread.cycle f ud ss nm env t).bind _ = _
    rw [cycle_ok f ud ss nm env t henv hr]
    exact ih (cycleEnd f ud ss) rfl

/-- C7: starting and stopping the same handle `n` times in sequence
succeeds for every `n`, each completed cycle (the state after `k` cycles is
this statement at `k`) ending stopped with the worker's exit code captured
— in particular, with a worker returning 7, each of 5 consecutive
start/stop cycles ends with `getExitCode() = 7`. -/
theorem serial_restart_cycles (f : ThreadFn) (ud : Int) (ss : Nat)
    (nm : Option String) (env : InitEnv) (n : Nat) (t : Thread)
    (henv : env.ok) (hf : isInt32 (f ud)) (hr : t.running = false) :
    ∃ t', Thread.cycles f ud ss nm env n t = Except.ok t' ∧
      t'.isRunning = false ∧ (1 ≤ n → t'.getExitCode = f ud) := by
  cases n with
  | zero => exact ⟨t, rfl, hr, fun h => absurd h (by omega)⟩
  | succ n =>
    refine ⟨cycleEnd f ud ss, cycles_succ_ok f ud ss nm env henv n t hr, rfl,
      fun _ => ?_⟩
    simp [Thread.getExitCode, cycleEnd, toInt32_eq_self hf]

/-- Witness for C7: five cycles of the worker `fun _ => 7` on a fresh
handle. -/
theorem serial_restart_cycles_witness :
    ∃ t', Thread.cycles (fun _ => 7) 0 0 none envOkEx 5 Thread.new = Except.ok t' ∧
      t'.isRunning = false ∧ (1 ≤ 5 → t'.getExitCode = 7) :=
  serial_restart_cycles (fun _ => 7) 0 0 none envOkEx 5 Thread.new
    (by decide) (by decide) rfl

/-- C8 counterexample: the claim "whenever the handle is not running, the
backend native thread handle and thread identifier are the invalid/zero
sentinels, preserved by every operation" is false on the classic Windows
backend: starting a fresh handle (the spawned thread observing identifier
1234) and then stopping it yields a non-running handle whose `m_threadId`
is 1234, not `UINT32_MAX` — `Thread::shutdown` resets only `m_handle`. -/
theorem idle_sentinel_counterexample :
    ThreadW.init ThreadW.new (fun _ => 0) 0 0 none ⟨5, 1234, false⟩ = Except.ok wStartedEx ∧
    wStartedEx.shutdown = Except.ok wStoppedEx ∧
    wStoppedEx.isRunning = false ∧ wStoppedEx.threadId ≠ UINT32_MAX :=
  ⟨rfl, rfl, rfl, by decide⟩

/-- C8 (amended): whenever the handle is not running, the backend native
thread handle is its invalid/zero sentinel, and construction also sets the
Windows thread identifier to its sentinel; but stop restores only the
handle — on the Windows backend the thread identifier keeps the last
thread's id after stop. Construction, every successful start (which leaves
the handle running, so the idle invariant is not challenged), and every
successful stop preserve this. -/
theorem idle_sentinel_amended :
    Thread.new.handle = 0 ∧
    (∀ t t' : Thread, t.shutdown = Except.ok t' → t'.handle = 0 ∧ t'.running = false) ∧
    (∀ (t : Thread) f ud ss nm env t',
      t.init f ud ss nm env = Except.ok t' → t'.running = true) ∧
    ThreadW.new.handle = INVALID_HANDLE_VALUE ∧
    ThreadW.new.threadId = UINT32_MAX ∧
    (∀ t t' : ThreadW, t.shutdown = Except.ok t' →
      t'.handle = INVALID_HANDLE_VALUE ∧ t'.running = false) ∧
    (∀ (t : ThreadW) f ud ss nm env t',
      t.init f ud ss nm env = Except.ok t' → t'.running = true) := by
  refine ⟨rfl, ?_, ?_, rfl, rfl, ?_, ?_⟩
  · intro t t' h
    obtain ⟨hr, ht⟩ := (shutdown_ok_iff t t').mp h
    subst ht
    exact ⟨rfl, rfl⟩
  · intro t f ud ss nm env t' h
    obtain ⟨_, _, _, _, ht⟩ := (init_ok_iff t f ud ss nm env t').mp h
    subst ht
    rfl
  · intro t t' h
    obtain ⟨hr, ht⟩ := (shutdownW_ok_iff t t').mp h
    subst ht
    exact ⟨rfl, rfl⟩
  · intro t f ud ss nm env t' h
    obtain ⟨_, ht⟩ := (initW_ok_iff t f ud ss nm env t').mp h
    subst ht
    rfl

/-- Witness for the amended C8: a completed POSIX stop ends with handle 0;
a completed Windows stop ends with the invalid handle sentinel. -/
theorem idle_sentinel_amended_witness :
    (stoppedEx.handle = 0 ∧ stoppedEx.running = false) ∧
    (wStoppedEx.handle = INVALID_HANDLE_VALUE ∧ wStoppedEx.running = false) :=
  ⟨idle_sentinel_amended.2.1 startedEx stoppedEx rfl,
   idle_sentinel_amended.2.2.2.2.2.1 wStartedEx wStoppedEx rfl⟩

/-- C9 counterexample: on the WinRT backend the claim "start leaves the
exit-code field unchanged, so between a start and its matching stop
`getExitCode()` still returns the value from the previous completed cycle
(or 0), and only stop modifies the exit code" fails: after a fresh start
with worker `fun _ => 7`, the pool work item — not `shutdown` — writes the
exit code while the handle is still running, so between start and stop
`getExitCode()` returns 7, not the prior value 0. -/
theorem exit_code_frame_counterexample :
    ThreadRT.init ThreadRT.new (fun _ => 7) 0 0 none rtEnv0 = Except.ok rtStartedEx ∧
    rtStartedEx.getExitCode = 0 ∧
    rtStartedEx.workItemComplete.isRunning = true ∧
    rtStartedEx.workItemComplete.getExitCode = 7 ∧
    rtStartedEx.workItemComplete.getExitCode ≠ ThreadRT.new.getExitCode :=
  ⟨rfl, rfl, rfl, rfl, by decide⟩

/-- C9 (amended): `getExitCode()` before any completed cycle returns the
default 0 on all backends, and start (`Thread::init`) itself leaves the
exit-code field unchanged on all backends; on the POSIX and classic
Windows backends only stop modifies the exit code, while on the WinRT
backend the spawned work item writes it when the worker completes, and a
stop issued after that leaves it unchanged. -/
theorem exit_code_default_and_frame :
    Thread.new.getExitCode = 0 ∧ ThreadW.new.getExitCode = 0 ∧
    ThreadRT.new.getExitCode = 0 ∧
    (∀ (t : Thread) f ud ss nm env t',
      t.init f ud ss nm env = Except.ok t' → t'.getExitCode = t.getExitCode) ∧
    (∀ (t : ThreadW) f ud ss nm env t',
      t.init f ud ss nm env = Except.ok t' → t'.getExitCode = t.getExitCode) ∧
    (∀ (t : ThreadRT) f ud ss nm env t',
      t.init f ud ss nm env = Except.ok t' → t'.getExitCode = t.getExitCode) ∧
    (∀ t t' : ThreadRT, t.eventSet = true → t.shutdown = Except.ok t' →
      t'.getExitCode = t.getExitCode) := by
  refine ⟨rfl, rfl, rfl, ?_, ?_, ?_, ?_⟩
  · intro t f ud ss nm env t' h
    obtain ⟨_, _, _, _, ht⟩ := (init_ok_iff t f ud ss nm env t').mp h
    subst ht
    rfl
  · intro t f ud ss nm env t' h
    obtain ⟨_, ht⟩ := (initW_ok_iff t f ud ss nm env t').mp h
    subst ht
    rfl
  · intro t f ud ss nm env t' h
    obtain ⟨_, ht⟩ := (initRT_ok_iff t f ud ss nm env t').mp h
    subst ht
    rfl
  · intro t t' he h
    exact shutdownRT_frame t t' he h

/-- Witness for the amended C9: the successful POSIX start `startedEx`
leaves the exit code at the fresh handle's value. -/
theorem exit_code_default_and_frame_witness :
    startedEx.getExitCode = Thread.new.getExitCode :=
  exit_code_default_and_frame.2.2.2.1 Thread.new (fun _ => 7) 0 0 none envOkEx
    startedEx rfl

/-- C10: `setThreadName` is best-effort on every backend: for every handle
state, name, platform branch, and native failure outcome it returns
without aborting and leaves the handle state completely unchanged; on
branches with no naming facility it is exactly a no-op. -/
theorem set_thread_name_best_effort :
    (∀ (t : Thread) (nm : String) (b : NameBackend) (fl : Bool),
      t.setThreadName nm b fl = Except.ok t) ∧
    (∀ (t : ThreadW) (nm : String) (fl : Bool),
      t.setThreadName nm fl = Except.ok t) ∧
    (∀ (t : ThreadRT) (nm : String), t.setThreadName nm = Except.ok t) :=
  ⟨setThreadName_ok, setThreadNameW_ok, setThreadNameRT_ok⟩

end bx
